import Mathlib

/-!
Verification of the tax-fluent-chat core against its specification.

The definitions below are a shallow embedding of the Python sources:
- `backend/app/services/tax_calculator.py` (bracket catalog, progressive
  tax calculator, deduction selection, orchestrator `calculate_tax`),
- `backend/app/crud.py` (`update_user_interaction_stats`, the proficiency
  tracker),
- `backend/app/services/explanation_engine.py` (`ExplanationEngine.get_explanation`).

Python floats are modelled as exact rationals (`ℚ`); `round(x, 2)` is
modelled as round-half-even at two decimal places (`round2`), matching
Python's rounding mode on exact values.  Exceptions are modelled with
`Except`: the single Python exception class `TaxCalculationError(msg)`
becomes the one-constructor inductive `TaxError` carrying the message.
Presentation-only strings (the `tax_bracket` range label, the generated
explanation paragraph, and the pre-authored explanation prose) are not
needed by any numeric or control-flow property and are represented
structurally (see `ExplanationText`), never inspected as text.
-/

/-- The single exception class `TaxCalculationError` of
`services/tax_calculator.py`, carrying its message. -/
inductive TaxError where
  | TaxCalculationError (msg : String)
deriving DecidableEq

/-- `TAX_BRACKETS_SINGLE`: 2024 federal brackets for single filers,
as `(threshold, rate)` pairs; `none` stands for `float('inf')`. -/
def TAX_BRACKETS_SINGLE : List (Option ℚ × ℚ) :=
  [(some 11600, 0.10), (some 47150, 0.12), (some 100525, 0.22),
   (some 191950, 0.24), (some 243725, 0.32), (some 609350, 0.35),
   (none, 0.37)]

/-- `TAX_BRACKETS_MARRIED_JOINT` from the source. -/
def TAX_BRACKETS_MARRIED_JOINT : List (Option ℚ × ℚ) :=
  [(some 23200, 0.10), (some 94300, 0.12), (some 201050, 0.22),
   (some 383900, 0.24), (some 487450, 0.32), (some 731200, 0.35),
   (none, 0.37)]

/-- `TAX_BRACKETS_MARRIED_SEPARATE` from the source. -/
def TAX_BRACKETS_MARRIED_SEPARATE : List (Option ℚ × ℚ) :=
  [(some 11600, 0.10), (some 47150, 0.12), (some 100525, 0.22),
   (some 191950, 0.24), (some 243725, 0.32), (some 365600, 0.35),
   (none, 0.37)]

/-- `TAX_BRACKETS_HEAD_OF_HOUSEHOLD` from the source. -/
def TAX_BRACKETS_HEAD_OF_HOUSEHOLD : List (Option ℚ × ℚ) :=
  [(some 16550, 0.10), (some 63100, 0.12), (some 100500, 0.22),
   (some 191950, 0.24), (some 243700, 0.32), (some 609350, 0.35),
   (none, 0.37)]

/-- The four keys of the `STANDARD_DEDUCTIONS` / bracket dictionaries. -/
def FILING_STATUSES : List String :=
  ["single", "married_joint", "married_separate", "head_of_household"]

/-- `get_tax_brackets`: dictionary lookup keyed on the filing status,
raising `TaxCalculationError` on an unknown key. -/
def get_tax_brackets (filing_status : String) :
    Except TaxError (List (Option ℚ × ℚ)) :=
  if filing_status = "single" then .ok TAX_BRACKETS_SINGLE
  else if filing_status = "married_joint" then .ok TAX_BRACKETS_MARRIED_JOINT
  else if filing_status = "married_separate" then .ok TAX_BRACKETS_MARRIED_SEPARATE
  else if filing_status = "head_of_household" then .ok TAX_BRACKETS_HEAD_OF_HOUSEHOLD
  else .error (.TaxCalculationError
    ("Invalid filing status: " ++ filing_status ++
     ". Must be one of: single, married_joint, married_separate, head_of_household"))

/-- `get_standard_deduction`: the `STANDARD_DEDUCTIONS` lookup. -/
def get_standard_deduction (filing_status : String) : Except TaxError ℚ :=
  if filing_status = "single" then .ok 14600
  else if filing_status = "married_joint" then .ok 29200
  else if filing_status = "married_separate" then .ok 14600
  else if filing_status = "head_of_household" then .ok 21900
  else .error (.TaxCalculationError
    ("Invalid filing status for deduction: " ++ filing_status))

/-- `taxable_income <= threshold` where the threshold may be `float('inf')`
(`none`), which every finite income is `<=`. -/
def leInf (x : ℚ) : Option ℚ → Bool
  | none => true
  | some t => x ≤ t

/-- The `for threshold, rate in brackets` loop of
`calculate_progressive_tax`, lines 123-139 of the source: accumulate the
tax for each full bracket below the income; on the first bracket whose
threshold the income does not exceed, add the tax on the remainder and
break, returning `(total_tax, marginal_rate)`.  If the list is exhausted
without a break (impossible for the catalog's lists, which end in the
unbounded bracket) the marginal rate keeps its initial value `0.0`.
The `Option.getD prev` in the continue branch is unreachable for a `none`
threshold, since `leInf _ none = true` forces the break branch. -/
def progTaxLoop (ti : ℚ) (prev acc : ℚ) :
    List (Option ℚ × ℚ) → ℚ × ℚ
  | [] => (acc, 0)
  | (t, r) :: rest =>
    if leInf ti t then (acc + (ti - prev) * r, r)
    else progTaxLoop ti (t.getD prev) (acc + (t.getD prev - prev) * r) rest

/-- `calculate_progressive_tax`: rejects negative taxable income,
short-circuits zero income to `(0.0, 0.0)`, otherwise walks the brackets.
The third component of the Python return value (the bracket description
string) is presentation-only and omitted. -/
def calculate_progressive_tax (taxable_income : ℚ) (filing_status : String) :
    Except TaxError (ℚ × ℚ) :=
  if taxable_income < 0 then
    .error (.TaxCalculationError "Taxable income cannot be negative")
  else if taxable_income = 0 then .ok (0, 0)
  else
    match get_tax_brackets filing_status with
    | .error e => .error e
    | .ok brackets => .ok (progTaxLoop taxable_income 0 0 brackets)

/-- Round-half-even to an integer, the rounding mode of Python's builtin
`round` on exact values. -/
def rhe (x : ℚ) : ℤ :=
  if x - ⌊x⌋ < 1/2 then ⌊x⌋
  else if 1/2 < x - ⌊x⌋ then ⌊x⌋ + 1
  else if 2 ∣ ⌊x⌋ then ⌊x⌋ else ⌊x⌋ + 1

/-- Python's `round(x, 2)`. -/
def round2 (x : ℚ) : ℚ := (rhe (x * 100) : ℚ) / 100

/-- The numeric fields of the dictionary returned by `calculate_tax`.
The `tax_bracket` label and `explanation` paragraph are presentation-only
strings and omitted. -/
structure TaxResult where
  gross_income : ℚ
  taxable_income : ℚ
  federal_tax : ℚ
  effective_rate : ℚ
  marginal_rate : ℚ
  standard_deduction : ℚ
  total_deductions : ℚ
deriving DecidableEq

/-- `calculate_tax`, the orchestrator (`compute_tax` of the spec):
validates the inputs in order, selects the larger of the standard and
additional deductions, clamps taxable income at zero, runs the
progressive calculator, derives the effective rate, and rounds every
monetary and rate field at the boundary (rates on the 0-100 scale). -/
def calculate_tax (income : ℚ) (filing_status : String)
    (dependents : ℤ) (additional_deductions : ℚ) :
    Except TaxError TaxResult :=
  if income < 0 then
    .error (.TaxCalculationError "Income cannot be negative")
  else if dependents < 0 then
    .error (.TaxCalculationError "Number of dependents cannot be negative")
  else if additional_deductions < 0 then
    .error (.TaxCalculationError "Additional deductions cannot be negative")
  else
    match get_standard_deduction filing_status with
    | .error e => .error e
    | .ok standard_deduction =>
      let total_deductions := max standard_deduction additional_deductions
      let taxable_income := max 0 (income - total_deductions)
      match calculate_progressive_tax taxable_income filing_status with
      | .error e => .error e
      | .ok (federal_tax, marginal_rate) =>
        let effective_rate :=
          if 0 < income then federal_tax / income * 100 else 0
        .ok { gross_income := round2 income
              taxable_income := round2 taxable_income
              federal_tax := round2 federal_tax
              effective_rate := round2 effective_rate
              marginal_rate := round2 (marginal_rate * 100)
              standard_deduction := round2 standard_deduction
              total_deductions := round2 total_deductions }

/-- The mutable fields of `models.UserProfile` that
`update_user_interaction_stats` (in `crud.py`) reads and writes. -/
structure UserProfile where
  interaction_count : ℕ
  help_requests : ℕ
  preferred_mode : String
deriving DecidableEq

/-- `update_user_interaction_stats` (`crud.py`, lines 125-143) as a pure
transition on the profile: increment `interaction_count`, increment
`help_requests` when help was requested, then — only once
`interaction_count > 10` — promote `preferred_mode` from `"novice"` to
`"intermediate"` when the help rate is below `0.1`, or from
`"intermediate"` to `"expert"` when it is below `0.05`.  The Python float
division `help_requests / interaction_count` is exact division in `ℚ`. -/
def update_user_interaction_stats (p : UserProfile) (help_requested : Bool) :
    UserProfile :=
  let ic := p.interaction_count + 1
  let hr := if help_requested then p.help_requests + 1 else p.help_requests
  let mode :=
    if ic > 10 then
      if (hr : ℚ) / (ic : ℚ) < 0.1 ∧ p.preferred_mode = "novice" then
        "intermediate"
      else if (hr : ℚ) / (ic : ℚ) < 0.05 ∧ p.preferred_mode = "intermediate" then
        "expert"
      else p.preferred_mode
    else p.preferred_mode
  { interaction_count := ic, help_requests := hr, preferred_mode := mode }

/-- The novice < intermediate < expert order on proficiency levels
(any other stored string is incomparable and mapped like novice; the
transition function never produces or consumes such a string except as
an unchanged value). -/
def modeRank (m : String) : ℕ :=
  if m = "novice" then 0
  else if m = "intermediate" then 1
  else if m = "expert" then 2
  else 0

/-- Keys of `ExplanationEngine.TAX_TERMS`, in dictionary order. -/
def TAX_TERMS_KEYS : List String :=
  ["agi", "standard_deduction", "marginal_rate", "effective_rate",
   "itemized_deductions", "progressive_brackets", "credits"]

/-- Keys of `ExplanationEngine.TOPICS`, in dictionary order. -/
def TOPICS_KEYS : List String :=
  ["filing_status", "deductions_vs_credits", "tax_planning"]

/-- The hand-authored `related` adjacency table of `_get_related_topics`. -/
def RELATED_TOPICS : List (String × List String) :=
  [("agi", ["standard_deduction", "itemized_deductions", "credits"]),
   ("standard_deduction", ["itemized_deductions", "agi", "filing_status"]),
   ("marginal_rate", ["effective_rate", "progressive_brackets", "tax_planning"]),
   ("effective_rate", ["marginal_rate", "progressive_brackets"]),
   ("itemized_deductions", ["standard_deduction", "agi", "deductions_vs_credits"]),
   ("progressive_brackets", ["marginal_rate", "effective_rate", "tax_planning"]),
   ("credits", ["deductions_vs_credits", "agi", "tax_planning"]),
   ("filing_status", ["standard_deduction", "progressive_brackets", "tax_planning"]),
   ("deductions_vs_credits", ["credits", "itemized_deductions", "tax_planning"]),
   ("tax_planning", ["deductions_vs_credits", "credits", "marginal_rate"])]

/-- `_get_related_topics`: `related.get(term, ["tax_planning",
"filing_status"])[:3]`. -/
def get_related_topics (term : String) : List String :=
  ((RELATED_TOPICS.lookup term).getD ["tax_planning", "filing_status"]).take 3

/-- `needle in hay` on character lists (Python substring membership). -/
def isInfixList (needle : List Char) : List Char → Bool
  | [] => needle.isEmpty
  | c :: rest => needle.isPrefixOf (c :: rest) || isInfixList needle rest

/-- `query.lower()`: Python lowercasing, character by character. -/
def lowerChars (s : String) : List Char := s.data.map Char.toLower

/-- `term.replace("_", " ")`. -/
def underscoreToSpace (l : List Char) : List Char :=
  l.map fun c => if c = '_' then ' ' else c

/-- `term.replace("_", " ") in query_lower or term in query_lower`
(line 96 of `services/explanation_engine.py`). -/
def termMatches (queryLower : List Char) (term : String) : Bool :=
  isInfixList (underscoreToSpace term.data) queryLower ||
  isInfixList term.data queryLower

/-- `topic.replace("_", " ") in query_lower` (line 106). -/
def topicMatches (queryLower : List Char) (topic : String) : Bool :=
  isInfixList (underscoreToSpace topic.data) queryLower

/-- The first `TAX_TERMS` key the query matches, in dictionary order. -/
def matchedTerm (queryLower : List Char) : Option String :=
  TAX_TERMS_KEYS.find? (termMatches queryLower)

/-- The first `TOPICS` key the query matches, in dictionary order. -/
def matchedTopic (queryLower : List Char) : Option String :=
  TOPICS_KEYS.find? (topicMatches queryLower)

/-- The proficiency normalization at the top of `get_explanation`:
anything outside novice/intermediate/expert falls back to novice. -/
def normalizeProficiency (proficiency : String) : String :=
  if proficiency = "novice" ∨ proficiency = "intermediate" ∨ proficiency = "expert"
  then proficiency else "novice"

/-- Which pre-authored or synthesized explanation text `get_explanation`
selects.  The prose bodies in the source are static data never branched
on; they are represented by the `(key, level)` coordinates that index
them in the `TAX_TERMS` / `TOPICS` tables. -/
inductive ExplanationText where
  | termEntry (term level : String)
  | topicEntry (topic level : String)
  | calcEntry (level : String)
  | defaultEntry (level : String)
deriving DecidableEq

/-- The dictionary returned by `get_explanation`.  The `technical_terms`
field is a keyword scan over the selected prose and is omitted with it. -/
structure ExplanationResult where
  explanation : ExplanationText
  proficiency : String
  related_topics : List String
deriving DecidableEq

/-- Levels that index the per-term explanation sub-dictionaries; the
`explanations[proficiency]` subscript raises `KeyError` outside them,
modelled by the `Option`. -/
def levelKeys : List String := ["novice", "intermediate", "expert"]

/-- `ExplanationEngine.get_explanation`: normalize the proficiency,
lowercase the query, try the term table, then the topic table, then a
context-based calculation narrative (the context dictionary, when
present, is a `calculate_tax` result and always carries the
`"federal_tax"` key), and finally the generic default response.
`none` would model an uncaught `KeyError`; the subscripts after
normalization never produce it. -/
def get_explanation (query proficiency : String) (context : Option TaxResult) :
    Option ExplanationResult :=
  let prof := normalizeProficiency proficiency
  let ql := lowerChars query
  match matchedTerm ql with
  | some term =>
    if levelKeys.contains prof then
      some ⟨.termEntry term prof, prof, get_related_topics term⟩
    else none
  | none =>
    match matchedTopic ql with
    | some topic =>
      if levelKeys.contains prof then
        some ⟨.topicEntry topic prof, prof, get_related_topics topic⟩
      else none
    | none =>
      if context.isSome then
        some ⟨.calcEntry prof, prof, ["tax_planning", "deductions_vs_credits"]⟩
      else
        some ⟨.defaultEntry prof, prof, ["tax_planning", "filing_status"]⟩

/-! ### Helper lemmas about the progressive-bracket walk -/

theorem progTaxLoop_nil (ti prev acc : ℚ) :
    progTaxLoop ti prev acc [] = (acc, 0) := rfl

theorem progTaxLoop_cons_none (ti prev acc r : ℚ)
    (rest : List (Option ℚ × ℚ)) :
    progTaxLoop ti prev acc ((none, r) :: rest) =
      (acc + (ti - prev) * r, r) := rfl

theorem progTaxLoop_cons_some_le {ti t : ℚ} (prev acc r : ℚ)
    (rest : List (Option ℚ × ℚ)) (h : ti ≤ t) :
    progTaxLoop ti prev acc ((some t, r) :: rest) =
      (acc + (ti - prev) * r, r) := by
  simp [progTaxLoop, leInf, h]

theorem progTaxLoop_cons_some_gt {ti t : ℚ} (prev acc r : ℚ)
    (rest : List (Option ℚ × ℚ)) (h : ¬ ti ≤ t) :
    progTaxLoop ti prev acc ((some t, r) :: rest) =
      progTaxLoop ti t (acc + (t - prev) * r) rest := by
  simp [progTaxLoop, leInf, h]

/-- Well-formedness of a bracket list relative to a lower threshold
bound `p` and a lower rate bound `rmin`: thresholds ascend from `p`,
rates ascend from `rmin`, and the list terminates with exactly one
unbounded bracket.  All four catalog lists satisfy it with `p = rmin = 0`. -/
def bracketsOk (p rmin : ℚ) : List (Option ℚ × ℚ) → Prop
  | [] => False
  | (none, r) :: rest => rmin ≤ r ∧ rest = []
  | (some t, r) :: rest => p ≤ t ∧ rmin ≤ r ∧ bracketsOk t r rest

theorem bracketsOk_single : bracketsOk 0 0 TAX_BRACKETS_SINGLE := by
  norm_num [bracketsOk, TAX_BRACKETS_SINGLE]

theorem bracketsOk_married_joint : bracketsOk 0 0 TAX_BRACKETS_MARRIED_JOINT := by
  norm_num [bracketsOk, TAX_BRACKETS_MARRIED_JOINT]

theorem bracketsOk_married_separate : bracketsOk 0 0 TAX_BRACKETS_MARRIED_SEPARATE := by
  norm_num [bracketsOk, TAX_BRACKETS_MARRIED_SEPARATE]

theorem bracketsOk_head_of_household : bracketsOk 0 0 TAX_BRACKETS_HEAD_OF_HOUSEHOLD := by
  norm_num [bracketsOk, TAX_BRACKETS_HEAD_OF_HOUSEHOLD]

/-- The running total never drops below the accumulator. -/
theorem progTaxLoop_ge_acc (bs : List (Option ℚ × ℚ)) :
    ∀ prev rmin acc ti : ℚ, 0 ≤ rmin → bracketsOk prev rmin bs →
      prev ≤ ti → acc ≤ (progTaxLoop ti prev acc bs).1 := by
  induction bs with
  | nil => intro prev rmin acc ti _ hok _; exact absurd hok id
  | cons hd tl ih =>
    obtain ⟨t, r⟩ := hd
    intro prev rmin acc ti hrmin hok hle
    match t with
    | none =>
      obtain ⟨hr, -⟩ := hok
      rw [progTaxLoop_cons_none]
      have : 0 ≤ (ti - prev) * r :=
        mul_nonneg (sub_nonneg.mpr hle) (hrmin.trans hr)
      simp only; linarith
    | some t =>
      obtain ⟨hpt, hr, hrest⟩ := hok
      by_cases hti : ti ≤ t
      · rw [progTaxLoop_cons_some_le _ _ _ _ hti]
        have : 0 ≤ (ti - prev) * r :=
          mul_nonneg (sub_nonneg.mpr hle) (hrmin.trans hr)
        simp only; linarith
      · rw [progTaxLoop_cons_some_gt _ _ _ _ hti]
        have h1 : acc ≤ acc + (t - prev) * r := by
          have : 0 ≤ (t - prev) * r :=
            mul_nonneg (sub_nonneg.mpr hpt) (hrmin.trans hr)
          linarith
        exact h1.trans (ih t r _ ti (hrmin.trans hr) hrest (le_of_lt (not_le.mp hti)))

/-- Monotonicity of the accumulated tax in the taxable income. -/
theorem progTaxLoop_mono (bs : List (Option ℚ × ℚ)) :
    ∀ prev rmin acc x y : ℚ, 0 ≤ rmin → bracketsOk prev rmin bs →
      prev ≤ x → x ≤ y →
      (progTaxLoop x prev acc bs).1 ≤ (progTaxLoop y prev acc bs).1 := by
  induction bs with
  | nil => intro prev rmin acc x y _ hok _ _; exact absurd hok id
  | cons hd tl ih =>
    obtain ⟨t, r⟩ := hd
    intro prev rmin acc x y hrmin hok hpx hxy
    match t with
    | none =>
      obtain ⟨hr, -⟩ := hok
      rw [progTaxLoop_cons_none, progTaxLoop_cons_none]
      have : (x - prev) * r ≤ (y - prev) * r :=
        mul_le_mul_of_nonneg_right (by linarith) (hrmin.trans hr)
      simp only; linarith
    | some t =>
      obtain ⟨hpt, hr, hrest⟩ := hok
      have hr0 : 0 ≤ r := hrmin.trans hr
      by_cases hx : x ≤ t
      · by_cases hy : y ≤ t
        · rw [progTaxLoop_cons_some_le _ _ _ _ hx,
            progTaxLoop_cons_some_le _ _ _ _ hy]
          have : (x - prev) * r ≤ (y - prev) * r :=
            mul_le_mul_of_nonneg_right (by linarith) hr0
          simp only; linarith
        · rw [progTaxLoop_cons_some_le _ _ _ _ hx,
            progTaxLoop_cons_some_gt _ _ _ _ hy]
          have h1 : acc + (t - prev) * r ≤
              (progTaxLoop y t (acc + (t - prev) * r) tl).1 :=
            progTaxLoop_ge_acc tl t r _ y hr0 hrest (le_of_lt (not_le.mp hy))
          have h2 : (x - prev) * r ≤ (t - prev) * r :=
            mul_le_mul_of_nonneg_right (by linarith) hr0
          simp only; linarith
      · have hy : ¬ y ≤ t := fun h => hx (hxy.trans h)
        rw [progTaxLoop_cons_some_gt _ _ _ _ hx,
          progTaxLoop_cons_some_gt _ _ _ _ hy]
        exact ih t r _ x y hr0 hrest (le_of_lt (not_le.mp hx)) hxy

/-- The rate returned by the walk is at least the entry lower bound. -/
theorem progTaxLoop_rate_lb (bs : List (Option ℚ × ℚ)) :
    ∀ prev rmin acc ti : ℚ, bracketsOk prev rmin bs →
      rmin ≤ (progTaxLoop ti prev acc bs).2 := by
  induction bs with
  | nil => intro prev rmin acc ti hok; exact absurd hok id
  | cons hd tl ih =>
    obtain ⟨t, r⟩ := hd
    intro prev rmin acc ti hok
    match t with
    | none =>
      obtain ⟨hr, -⟩ := hok
      rw [progTaxLoop_cons_none]; exact hr
    | some t =>
      obtain ⟨hpt, hr, hrest⟩ := hok
      by_cases hti : ti ≤ t
      · rw [progTaxLoop_cons_some_le _ _ _ _ hti]; exact hr
      · rw [progTaxLoop_cons_some_gt _ _ _ _ hti]
        exact hr.trans (ih t r _ ti hrest)

/-- The rate returned by the walk is one of the rates of the list
(stated for an arbitrary predicate over the rates). -/
theorem progTaxLoop_rate_mem (bs : List (Option ℚ × ℚ)) (P : ℚ → Prop) :
    ∀ prev rmin acc ti : ℚ, (∀ q ∈ bs, P q.2) → bracketsOk prev rmin bs →
      P (progTaxLoop ti prev acc bs).2 := by
  induction bs with
  | nil => intro prev rmin acc ti _ hok; exact absurd hok id
  | cons hd tl ih =>
    obtain ⟨t, r⟩ := hd
    intro prev rmin acc ti hmem hok
    match t with
    | none =>
      rw [progTaxLoop_cons_none]
      exact hmem (none, r) (List.mem_cons_self _ _)
    | some t =>
      obtain ⟨hpt, hr, hrest⟩ := hok
      by_cases hti : ti ≤ t
      · rw [progTaxLoop_cons_some_le _ _ _ _ hti]
        exact hmem (some t, r) (List.mem_cons_self _ _)
      · rw [progTaxLoop_cons_some_gt _ _ _ _ hti]
        exact ih t r _ ti (fun q hq => hmem q (List.mem_cons_of_mem _ hq)) hrest

/-- The accumulated tax is bounded by the returned marginal rate times
the income above the entry threshold: every slab below the terminal one
is taxed at a rate no larger than the terminal (marginal) rate. -/
theorem progTaxLoop_ub (bs : List (Option ℚ × ℚ)) :
    ∀ prev rmin acc ti : ℚ, 0 ≤ rmin → bracketsOk prev rmin bs →
      prev ≤ ti →
      (progTaxLoop ti prev acc bs).1 ≤
        acc + (progTaxLoop ti prev acc bs).2 * (ti - prev) := by
  induction bs with
  | nil => intro prev rmin acc ti _ hok _; exact absurd hok id
  | cons hd tl ih =>
    obtain ⟨t, r⟩ := hd
    intro prev rmin acc ti hrmin hok hle
    match t with
    | none =>
      rw [progTaxLoop_cons_none]
      simp only; nlinarith
    | some t =>
      obtain ⟨hpt, hr, hrest⟩ := hok
      by_cases hti : ti ≤ t
      · rw [progTaxLoop_cons_some_le _ _ _ _ hti]
        simp only; nlinarith
      · rw [progTaxLoop_cons_some_gt _ _ _ _ hti]
        have hti' : t ≤ ti := le_of_lt (not_le.mp hti)
        have hr0 : 0 ≤ r := hrmin.trans hr
        have hih := ih t r (acc + (t - prev) * r) ti hr0 hrest hti'
        have hrle : r ≤ (progTaxLoop ti t (acc + (t - prev) * r) tl).2 :=
          progTaxLoop_rate_lb tl t r _ ti hrest
        have hmul : (t - prev) * r ≤
            (t - prev) * (progTaxLoop ti t (acc + (t - prev) * r) tl).2 :=
          mul_le_mul_of_nonneg_left hrle (sub_nonneg.mpr hpt)
        nlinarith

/-! ### Helper lemmas about rounding -/

theorem rhe_intCast (n : ℤ) : rhe (n : ℚ) = n := by
  unfold rhe
  rw [Int.floor_intCast]
  norm_num

theorem rhe_le_of_le {z : ℚ} {n : ℤ} (h : z ≤ (n : ℚ)) : rhe z ≤ n := by
  have hfl : ⌊z⌋ ≤ n := by
    have h1 := Int.floor_le_floor h
    rwa [Int.floor_intCast] at h1
  unfold rhe
  split_ifs with h1 h2 h3
  · exact hfl
  · have h4 : (⌊z⌋ : ℚ) < z := by linarith
    have h5 : ⌊z⌋ < n := by exact_mod_cast lt_of_lt_of_le h4 h
    omega
  · exact hfl
  · have h4 : (⌊z⌋ : ℚ) < z := by linarith
    have h5 : ⌊z⌋ < n := by exact_mod_cast lt_of_lt_of_le h4 h
    omega

theorem round2_intCast (n : ℤ) : round2 (n : ℚ) = n := by
  unfold round2
  have h1 : (n : ℚ) * 100 = ((n * 100 : ℤ) : ℚ) := by push_cast; ring
  rw [h1, rhe_intCast]
  push_cast
  field_simp

theorem round2_zero : round2 0 = 0 := by
  have := round2_intCast 0
  simpa using this

theorem round2_le_int {z : ℚ} {n : ℤ} (h : z ≤ (n : ℚ)) : round2 z ≤ (n : ℚ) := by
  unfold round2
  have h1 : z * 100 ≤ ((n * 100 : ℤ) : ℚ) := by push_cast; linarith
  have h2 : rhe (z * 100) ≤ n * 100 := rhe_le_of_le h1
  have h3 : ((rhe (z * 100) : ℤ) : ℚ) ≤ ((n * 100 : ℤ) : ℚ) := by exact_mod_cast h2
  rw [div_le_iff₀ (by norm_num : (0:ℚ) < 100)]
  push_cast at h3 ⊢
  linarith

/-! ### Helper lemmas about the bracket catalog and the orchestrator -/

theorem get_standard_deduction_mem {fs : String} {sd : ℚ}
    (h : get_standard_deduction fs = .ok sd) : fs ∈ FILING_STATUSES := by
  unfold get_standard_deduction at h
  split_ifs at h with h1 h2 h3 h4 <;>
    simp_all [FILING_STATUSES]

theorem get_standard_deduction_not_mem {fs : String}
    (h : fs ∉ FILING_STATUSES) :
    get_standard_deduction fs = .error (.TaxCalculationError
      ("Invalid filing status for deduction: " ++ fs)) := by
  simp only [FILING_STATUSES, List.mem_cons, List.not_mem_nil, or_false,
    not_or] at h
  obtain ⟨h1, h2, h3, h4⟩ := h
  unfold get_standard_deduction
  rw [if_neg h1, if_neg h2, if_neg h3, if_neg h4]

theorem status_facts :
    ∀ fs ∈ FILING_STATUSES, ∃ bs, get_tax_brackets fs = .ok bs ∧
      bracketsOk 0 0 bs ∧
      ∀ q ∈ bs, 0 ≤ q.2 ∧ ∃ n : ℤ, q.2 * 100 = (n : ℚ) := by
  intro fs hfs
  fin_cases hfs
  · refine ⟨TAX_BRACKETS_SINGLE, rfl, bracketsOk_single, ?_⟩
    intro q hq
    fin_cases hq
    · exact ⟨by norm_num, 10, by norm_num⟩
    · exact ⟨by norm_num, 12, by norm_num⟩
    · exact ⟨by norm_num, 22, by norm_num⟩
    · exact ⟨by norm_num, 24, by norm_num⟩
    · exact ⟨by norm_num, 32, by norm_num⟩
    · exact ⟨by norm_num, 35, by norm_num⟩
    · exact ⟨by norm_num, 37, by norm_num⟩
  · refine ⟨TAX_BRACKETS_MARRIED_JOINT, rfl, bracketsOk_married_joint, ?_⟩
    intro q hq
    fin_cases hq
    · exact ⟨by norm_num, 10, by norm_num⟩
    · exact ⟨by norm_num, 12, by norm_num⟩
    · exact ⟨by norm_num, 22, by norm_num⟩
    · exact ⟨by norm_num, 24, by norm_num⟩
    · exact ⟨by norm_num, 32, by norm_num⟩
    · exact ⟨by norm_num, 35, by norm_num⟩
    · exact ⟨by norm_num, 37, by norm_num⟩
  · refine ⟨TAX_BRACKETS_MARRIED_SEPARATE, rfl, bracketsOk_married_separate, ?_⟩
    intro q hq
    fin_cases hq
    · exact ⟨by norm_num, 10, by norm_num⟩
    · exact ⟨by norm_num, 12, by norm_num⟩
    · exact ⟨by norm_num, 22, by norm_num⟩
    · exact ⟨by norm_num, 24, by norm_num⟩
    · exact ⟨by norm_num, 32, by norm_num⟩
    · exact ⟨by norm_num, 35, by norm_num⟩
    · exact ⟨by norm_num, 37, by norm_num⟩
  · refine ⟨TAX_BRACKETS_HEAD_OF_HOUSEHOLD, rfl, bracketsOk_head_of_household, ?_⟩
    intro q hq
    fin_cases hq
    · exact ⟨by norm_num, 10, by norm_num⟩
    · exact ⟨by norm_num, 12, by norm_num⟩
    · exact ⟨by norm_num, 22, by norm_num⟩
    · exact ⟨by norm_num, 24, by norm_num⟩
    · exact ⟨by norm_num, 32, by norm_num⟩
    · exact ⟨by norm_num, 35, by norm_num⟩
    · exact ⟨by norm_num, 37, by norm_num⟩

theorem calculate_progressive_tax_ok {fs : String} (hfs : fs ∈ FILING_STATUSES)
    {ti : ℚ} (hti : 0 ≤ ti) :
    ∃ ft mr, calculate_progressive_tax ti fs = .ok (ft, mr) := by
  obtain ⟨bs, hbs, hok, -⟩ := status_facts fs hfs
  unfold calculate_progressive_tax
  rw [if_neg (not_lt.mpr hti)]
  by_cases h0 : ti = 0
  · rw [if_pos h0]; exact ⟨0, 0, rfl⟩
  · rw [if_neg h0, hbs]
    exact ⟨(progTaxLoop ti 0 0 bs).1, (progTaxLoop ti 0 0 bs).2, rfl⟩

/-- Inversion principle for a successful `calculate_tax` run: the inputs
passed validation and every output field is determined by the standard
deduction and the progressive-tax pair. -/
theorem calculate_tax_ok_inv {income add : ℚ} {fs : String} {dep : ℤ}
    {r : TaxResult} (h : calculate_tax income fs dep add = .ok r) :
    ∃ sd ft mr, 0 ≤ income ∧ 0 ≤ dep ∧ 0 ≤ add ∧
      get_standard_deduction fs = .ok sd ∧
      calculate_progressive_tax (max 0 (income - max sd add)) fs = .ok (ft, mr) ∧
      r = { gross_income := round2 income
            taxable_income := round2 (max 0 (income - max sd add))
            federal_tax := round2 ft
            effective_rate := round2 (if 0 < income then ft / income * 100 else 0)
            marginal_rate := round2 (mr * 100)
            standard_deduction := round2 sd
            total_deductions := round2 (max sd add) } := by
  unfold calculate_tax at h
  by_cases h1 : income < 0
  · rw [if_pos h1] at h; exact absurd h (by simp)
  rw [if_neg h1] at h
  by_cases h2 : dep < 0
  · rw [if_pos h2] at h; exact absurd h (by simp)
  rw [if_neg h2] at h
  by_cases h3 : add < 0
  · rw [if_pos h3] at h; exact absurd h (by simp)
  rw [if_neg h3] at h
  cases hsd : get_standard_deduction fs with
  | error e => rw [hsd] at h; exact absurd h (by simp)
  | ok sd =>
    rw [hsd] at h
    dsimp only at h
    cases hpt : calculate_progressive_tax (max 0 (income - max sd add)) fs with
    | error e => rw [hpt] at h; exact absurd h (by simp)
    | ok p =>
      obtain ⟨ft, mr⟩ := p
      rw [hpt] at h
      simp only [Except.ok.injEq] at h
      exact ⟨sd, ft, mr, not_lt.mp h1, not_lt.mp h2, not_lt.mp h3, rfl, hpt, h.symm⟩

/-- Construction principle, the converse direction. -/
theorem calculate_tax_ok_mk {income add : ℚ} {fs : String} {dep : ℤ}
    {sd ft mr : ℚ} (h1 : 0 ≤ income) (h2 : 0 ≤ dep) (h3 : 0 ≤ add)
    (hsd : get_standard_deduction fs = .ok sd)
    (hpt : calculate_progressive_tax (max 0 (income - max sd add)) fs = .ok (ft, mr)) :
    calculate_tax income fs dep add =
      .ok { gross_income := round2 income
            taxable_income := round2 (max 0 (income - max sd add))
            federal_tax := round2 ft
            effective_rate := round2 (if 0 < income then ft / income * 100 else 0)
            marginal_rate := round2 (mr * 100)
            standard_deduction := round2 sd
            total_deductions := round2 (max sd add) } := by
  unfold calculate_tax
  rw [if_neg (not_lt.mpr h1), if_neg (not_lt.mpr h2), if_neg (not_lt.mpr h3),
    hsd]
  dsimp only
  rw [hpt]

/-! ### Claim theorems -/

/-- C1 (counterexample): for income 50000, status single, no dependents
and no additional deductions, the total tax returned by the orchestrator
is not 4031.92 — the claimed decomposition 10% of 11600 plus 12% of
23800 itself sums to 4016.00, which is what the code returns. -/
theorem c1_total_tax_counterexample :
    Except.map TaxResult.federal_tax (calculate_tax 50000 "single" 0 0) ≠
      Except.ok (4031.92 : ℚ) := by
  have h : calculate_tax 50000 "single" 0 0 =
      .ok ⟨50000, 35400, 4016, 8.03, 12, 14600, 14600⟩ := by
    norm_num [calculate_tax, get_standard_deduction, calculate_progressive_tax,
      get_tax_brackets, progTaxLoop, leInf, TAX_BRACKETS_SINGLE, round2, rhe,
      max_def]
  rw [h]
  simp only [Except.map, ne_eq, Except.ok.injEq]
  norm_num

/-- C1 (amended): for income 50000, status single, dependents 0,
additional deductions 0, the orchestrator returns standard_deduction
14600, taxable_income 35400, total_tax 4016.00 (not 4031.92), marginal
rate 12 on the 0-100 scale, and the total decomposes as 10% of 11600
plus 12% of 23800. -/
theorem c1_scenario_single_50000 :
    calculate_tax 50000 "single" 0 0 =
      .ok { gross_income := 50000, taxable_income := 35400,
            federal_tax := 4016, effective_rate := 8.03, marginal_rate := 12,
            standard_deduction := 14600, total_deductions := 14600 } ∧
    (4016 : ℚ) = 0.10 * 11600 + 0.12 * 23800 := by
  constructor
  · norm_num [calculate_tax, get_standard_deduction, calculate_progressive_tax,
      get_tax_brackets, progTaxLoop, leInf, TAX_BRACKETS_SINGLE, round2, rhe,
      max_def]
  · norm_num

/-- C2: for every valid input with a recognized filing status,
`total_deductions` is the larger of the standard deduction and the
additional deductions (itemizing replaces, never adds), and
`taxable_income` is `max 0 (gross - total_deductions)` — both as rounded
at the output boundary. -/
theorem c2_deduction_selection (income add : ℚ) (fs : String) (dep : ℤ)
    (sd : ℚ) (hin : 0 ≤ income) (hdep : 0 ≤ dep) (hadd : 0 ≤ add)
    (hsd : get_standard_deduction fs = .ok sd) :
    Except.map TaxResult.total_deductions (calculate_tax income fs dep add) =
      .ok (round2 (max sd add)) ∧
    Except.map TaxResult.taxable_income (calculate_tax income fs dep add) =
      .ok (round2 (max 0 (income - max sd add))) := by
  have hfs := get_standard_deduction_mem hsd
  obtain ⟨ft, mr, hpt⟩ :=
    calculate_progressive_tax_ok hfs (le_max_left 0 (income - max sd add))
  rw [calculate_tax_ok_mk hin hdep hadd hsd hpt]
  exact ⟨rfl, rfl⟩

/-- C2 witness at a concrete itemizing input: additional deductions
20000 beat the single-filer standard deduction 14600 and fully replace
it. -/
theorem c2_deduction_selection_witness :
    Except.map TaxResult.total_deductions (calculate_tax 50000 "single" 0 20000) =
      .ok (round2 (max 14600 20000)) ∧
    Except.map TaxResult.taxable_income (calculate_tax 50000 "single" 0 20000) =
      .ok (round2 (max 0 (50000 - max 14600 20000))) :=
  c2_deduction_selection 50000 20000 "single" 0 14600 (by norm_num)
    (by norm_num) (by norm_num) rfl

/-- C3: the orchestrator validates fail-fast in the order negative
income, negative dependents, negative additional deductions, then
unrecognized filing status (surfaced by the standard-deduction lookup),
and succeeds on every input passing all four checks.  The spec's
`InvalidInput` / `UnknownFilingStatus` taxonomy corresponds to the
single `TaxCalculationError` class with the four messages below. -/
theorem c3_validation_order (income add : ℚ) (fs : String) (dep : ℤ) :
    (income < 0 → calculate_tax income fs dep add =
      .error (.TaxCalculationError "Income cannot be negative")) ∧
    (0 ≤ income → dep < 0 → calculate_tax income fs dep add =
      .error (.TaxCalculationError "Number of dependents cannot be negative")) ∧
    (0 ≤ income → 0 ≤ dep → add < 0 → calculate_tax income fs dep add =
      .error (.TaxCalculationError "Additional deductions cannot be negative")) ∧
    (0 ≤ income → 0 ≤ dep → 0 ≤ add → fs ∉ FILING_STATUSES →
      calculate_tax income fs dep add =
        .error (.TaxCalculationError
          ("Invalid filing status for deduction: " ++ fs))) ∧
    (0 ≤ income → 0 ≤ dep → 0 ≤ add → fs ∈ FILING_STATUSES →
      ∃ r, calculate_tax income fs dep add = .ok r) := by
  refine ⟨?_, ?_, ?_, ?_, ?_⟩
  · intro h
    unfold calculate_tax
    rw [if_pos h]
  · intro h1 h2
    unfold calculate_tax
    rw [if_neg (not_lt.mpr h1), if_pos h2]
  · intro h1 h2 h3
    unfold calculate_tax
    rw [if_neg (not_lt.mpr h1), if_neg (not_lt.mpr h2), if_pos h3]
  · intro h1 h2 h3 h4
    unfold calculate_tax
    rw [if_neg (not_lt.mpr h1), if_neg (not_lt.mpr h2), if_neg (not_lt.mpr h3),
      get_standard_deduction_not_mem h4]
  · intro h1 h2 h3 h4
    obtain ⟨sd, hsd⟩ : ∃ sd, get_standard_deduction fs = .ok sd := by
      fin_cases h4 <;> exact ⟨_, rfl⟩
    obtain ⟨ft, mr, hpt⟩ :=
      calculate_progressive_tax_ok h4 (le_max_left 0 (income - max sd add))
    exact ⟨_, calculate_tax_ok_mk h1 h2 h3 hsd hpt⟩

/-- C3 witness: the first check fires on a negative income, and a fully
valid input produces a result. -/
theorem c3_validation_order_witness :
    calculate_tax (-1) "single" 0 0 =
      .error (.TaxCalculationError "Income cannot be negative") ∧
    ∃ r, calculate_tax 50000 "single" 0 0 = .ok r :=
  ⟨(c3_validation_order (-1) 0 "single" 0).1 (by norm_num),
   (c3_validation_order 50000 0 "single" 0).2.2.2.2 (by norm_num) (by norm_num)
     (by norm_num) (by decide)⟩

/-- C4: for every recognized filing status the progressive calculator's
total tax is non-decreasing in taxable income. -/
theorem c4_total_tax_monotone (fs : String) (hfs : fs ∈ FILING_STATUSES)
    (x y : ℚ) (hx : 0 ≤ x) (hxy : x ≤ y) (px py : ℚ × ℚ)
    (hpx : calculate_progressive_tax x fs = .ok px)
    (hpy : calculate_progressive_tax y fs = .ok py) :
    px.1 ≤ py.1 := by
  obtain ⟨bs, hbs, hok, -⟩ := status_facts fs hfs
  have hy : 0 ≤ y := hx.trans hxy
  unfold calculate_progressive_tax at hpx hpy
  rw [if_neg (not_lt.mpr hx)] at hpx
  rw [if_neg (not_lt.mpr hy)] at hpy
  by_cases hx0 : x = 0
  · rw [if_pos hx0] at hpx
    simp only [Except.ok.injEq] at hpx
    by_cases hy0 : y = 0
    · rw [if_pos hy0] at hpy
      simp only [Except.ok.injEq] at hpy
      rw [← hpx, ← hpy]
    · rw [if_neg hy0, hbs] at hpy
      simp only [Except.ok.injEq] at hpy
      rw [← hpx, ← hpy]
      simpa using progTaxLoop_ge_acc bs 0 0 0 y le_rfl hok hy
  · have hxpos : 0 < x := lt_of_le_of_ne hx (Ne.symm hx0)
    have hy0 : y ≠ 0 := (hxpos.trans_le hxy).ne'
    rw [if_neg hx0, hbs] at hpx
    rw [if_neg hy0, hbs] at hpy
    simp only [Except.ok.injEq] at hpx hpy
    rw [← hpx, ← hpy]
    exact progTaxLoop_mono bs 0 0 0 x y le_rfl hok hx hxy

/-- C4 witness: concrete single-filer incomes 1 and 2 produce taxes
0.10 and 0.20, with the former at most the latter. -/
theorem c4_total_tax_monotone_witness :
    ((0.10 : ℚ), (0.10 : ℚ)).1 ≤ ((0.20 : ℚ), (0.10 : ℚ)).1 :=
  c4_total_tax_monotone "single" (by decide) 1 2 (by norm_num) (by norm_num)
    (0.10, 0.10) (0.20, 0.10)
    (by norm_num [calculate_progressive_tax, get_tax_brackets, progTaxLoop,
      leInf, TAX_BRACKETS_SINGLE])
    (by norm_num [calculate_progressive_tax, get_tax_brackets, progTaxLoop,
      leInf, TAX_BRACKETS_SINGLE])

/-- C5: zero gross income yields zero total tax, zero marginal rate and
zero effective rate for each of the four recognized filing statuses
(dependents 0, additional deductions 0). -/
theorem c5_zero_income_all_statuses :
    calculate_tax 0 "single" 0 0 =
      .ok { gross_income := 0, taxable_income := 0, federal_tax := 0,
            effective_rate := 0, marginal_rate := 0,
            standard_deduction := 14600, total_deductions := 14600 } ∧
    calculate_tax 0 "married_joint" 0 0 =
      .ok { gross_income := 0, taxable_income := 0, federal_tax := 0,
            effective_rate := 0, marginal_rate := 0,
            standard_deduction := 29200, total_deductions := 29200 } ∧
    calculate_tax 0 "married_separate" 0 0 =
      .ok { gross_income := 0, taxable_income := 0, federal_tax := 0,
            effective_rate := 0, marginal_rate := 0,
            standard_deduction := 14600, total_deductions := 14600 } ∧
    calculate_tax 0 "head_of_household" 0 0 =
      .ok { gross_income := 0, taxable_income := 0, federal_tax := 0,
            effective_rate := 0, marginal_rate := 0,
            standard_deduction := 21900, total_deductions := 21900 } := by
  have h1 : get_standard_deduction "single" = .ok 14600 := rfl
  have h2 : get_standard_deduction "married_joint" = .ok 29200 := rfl
  have h3 : get_standard_deduction "married_separate" = .ok 14600 := rfl
  have h4 : get_standard_deduction "head_of_household" = .ok 21900 := rfl
  refine ⟨?_, ?_, ?_, ?_⟩ <;>
    norm_num [calculate_tax, calculate_progressive_tax, h1, h2, h3, h4,
      round2, rhe, max_def]

/-- C6 (counterexample): the progressive-tax component itself rejects a
negative taxable income with `TaxCalculationError` — it is not true that
rejection happens only in the orchestrator. -/
theorem c6_component_raises_counterexample :
    calculate_progressive_tax (-1) "single" =
      .error (.TaxCalculationError "Taxable income cannot be negative") := by
  norm_num [calculate_progressive_tax]

/-- C6 (amended): `calculate_progressive_tax` rejects every negative
taxable income itself, before any bracket lookup, for every filing
status string. -/
theorem c6_component_rejects_negative (ti : ℚ) (fs : String) (h : ti < 0) :
    calculate_progressive_tax ti fs =
      .error (.TaxCalculationError "Taxable income cannot be negative") := by
  unfold calculate_progressive_tax
  rw [if_pos h]

/-- C6 witness at a concrete negative income and a different status. -/
theorem c6_component_rejects_negative_witness :
    calculate_progressive_tax (-2) "married_joint" =
      .error (.TaxCalculationError "Taxable income cannot be negative") :=
  c6_component_rejects_negative (-2) "married_joint" (by norm_num)

/-- C7: starting from a fresh novice profile, eleven interactions with
no help request promote the profile to intermediate; a single update
bringing a novice profile to interaction_count 11 with 2 help requests
(help rate 2/11 ≈ 0.18) leaves it novice. -/
theorem c7_proficiency_scenarios :
    update_user_interaction_stats (update_user_interaction_stats
      (update_user_interaction_stats (update_user_interaction_stats
        (update_user_interaction_stats (update_user_interaction_stats
          (update_user_interaction_stats (update_user_interaction_stats
            (update_user_interaction_stats (update_user_interaction_stats
              (update_user_interaction_stats ⟨0, 0, "novice"⟩ false)
              false) false) false) false) false) false) false) false) false)
      false = ⟨11, 0, "intermediate"⟩ ∧
    update_user_interaction_stats ⟨10, 2, "novice"⟩ false =
      ⟨11, 2, "novice"⟩ := by
  constructor
  · norm_num [update_user_interaction_stats]
  · norm_num [update_user_interaction_stats]

/-- C8: each recorded interaction increments the interaction counter by
exactly one, increments the help counter exactly when help was
requested, never lowers the proficiency level in the
novice < intermediate < expert order, and changes the level only when
the post-increment interaction count exceeds the sample-size gate 10. -/
theorem c8_record_interaction_invariants (p : UserProfile) (h : Bool) :
    modeRank p.preferred_mode ≤
      modeRank (update_user_interaction_stats p h).preferred_mode ∧
    (update_user_interaction_stats p h).interaction_count =
      p.interaction_count + 1 ∧
    (update_user_interaction_stats p h).help_requests =
      p.help_requests + (if h then 1 else 0) ∧
    (¬ p.interaction_count + 1 > 10 →
      (update_user_interaction_stats p h).preferred_mode =
        p.preferred_mode) := by
  refine ⟨?_, rfl, ?_, ?_⟩
  · unfold update_user_interaction_stats
    cases h <;> dsimp only <;> split_ifs <;>
      first
        | exact le_refl _
        | (rename_i hc; rw [hc.2]; decide)
  · unfold update_user_interaction_stats
    cases h <;> simp
  · intro hgate
    unfold update_user_interaction_stats
    dsimp only
    rw [if_neg hgate]

/-- C8 witness: a help-requesting interaction on a fresh profile bumps
the counters and, being below the gate, leaves the level unchanged. -/
theorem c8_record_interaction_invariants_witness :
    modeRank (UserProfile.mk 0 0 "novice").preferred_mode ≤
      modeRank (update_user_interaction_stats ⟨0, 0, "novice"⟩ true).preferred_mode ∧
    (update_user_interaction_stats ⟨0, 0, "novice"⟩ true).preferred_mode =
      (UserProfile.mk 0 0 "novice").preferred_mode :=
  ⟨(c8_record_interaction_invariants ⟨0, 0, "novice"⟩ true).1,
   (c8_record_interaction_invariants ⟨0, 0, "novice"⟩ true).2.2.2 (by norm_num)⟩

/-- C9: for every query and proficiency, when the lowercased query
matches no term key and no topic key and no computation context is
supplied, `get_explanation` returns the generic default entry (with the
fixed related-topic pair) rather than failing. -/
theorem c9_unrecognized_topic_fallback (query proficiency : String)
    (hterm : matchedTerm (lowerChars query) = none)
    (htopic : matchedTopic (lowerChars query) = none) :
    get_explanation query proficiency none =
      some ⟨.defaultEntry (normalizeProficiency proficiency),
            normalizeProficiency proficiency,
            ["tax_planning", "filing_status"]⟩ := by
  unfold get_explanation
  dsimp only
  rw [hterm, htopic]
  rfl

/-- C9 witness at a query matching nothing and an unrecognized
proficiency string, which normalizes to novice. -/
theorem c9_unrecognized_topic_fallback_witness :
    get_explanation "hello" "guru" none =
      some ⟨.defaultEntry (normalizeProficiency "guru"),
            normalizeProficiency "guru",
            ["tax_planning", "filing_status"]⟩ :=
  c9_unrecognized_topic_fallback "hello" "guru" (by decide) (by decide)

/-- C10: on every accepted input the rounded effective rate never
exceeds the rounded marginal rate (both 0-100 scale), and both are zero
when the gross income, or the taxable income the orchestrator derives,
is zero. -/
theorem c10_effective_le_marginal (income add : ℚ) (fs : String) (dep : ℤ)
    (r : TaxResult) (h : calculate_tax income fs dep add = .ok r) :
    r.effective_rate ≤ r.marginal_rate ∧
    (income = 0 → r.effective_rate = 0 ∧ r.marginal_rate = 0) ∧
    (∀ sd, get_standard_deduction fs = .ok sd →
      max 0 (income - max sd add) = 0 →
      r.effective_rate = 0 ∧ r.marginal_rate = 0) := by
  obtain ⟨sd, ft, mr, hin, hdep, hadd, hsd, hpt, hreq⟩ := calculate_tax_ok_inv h
  subst hreq
  by_cases htiz : max 0 (income - max sd add) = 0
  · have hz : calculate_progressive_tax (max 0 (income - max sd add)) fs =
        .ok (0, 0) := by
      unfold calculate_progressive_tax
      rw [if_neg (not_lt.mpr (le_max_left _ _)), if_pos htiz]
    rw [hz] at hpt
    simp only [Except.ok.injEq, Prod.mk.injEq] at hpt
    obtain ⟨hf, hm⟩ := hpt
    subst hf; subst hm
    have he : round2 (if 0 < income then (0:ℚ) / income * 100 else 0) = 0 := by
      have hcond : (if 0 < income then (0:ℚ) / income * 100 else 0) = 0 := by
        split_ifs <;> simp
      rw [hcond, round2_zero]
    have hm2 : round2 ((0:ℚ) * 100) = 0 := by
      rw [zero_mul, round2_zero]
    refine ⟨?_, ?_, ?_⟩
    · show round2 (if 0 < income then (0:ℚ) / income * 100 else 0) ≤
        round2 ((0:ℚ) * 100)
      rw [he, hm2]
    · intro h0
      exact ⟨he, hm2⟩
    · intro sd' hsd' hz'
      exact ⟨he, hm2⟩
  · have htipos : 0 < max 0 (income - max sd add) :=
      lt_of_le_of_ne (le_max_left _ _) (Ne.symm htiz)
    have hfs := get_standard_deduction_mem hsd
    obtain ⟨bs, hbs, hok, hrates⟩ := status_facts fs hfs
    have hpt' : progTaxLoop (max 0 (income - max sd add)) 0 0 bs = (ft, mr) := by
      unfold calculate_progressive_tax at hpt
      rw [if_neg (not_lt.mpr (le_max_left _ _)), if_neg htiz, hbs] at hpt
      simpa using hpt
    have htd0 : (0:ℚ) ≤ max sd add := hadd.trans (le_max_right _ _)
    have htile : max 0 (income - max sd add) ≤ income := by
      apply max_le hin
      linarith
    have hincpos : 0 < income := lt_of_lt_of_le htipos htile
    have hub := progTaxLoop_ub bs 0 0 0 (max 0 (income - max sd add))
      le_rfl hok (le_max_left _ _)
    have hmem := progTaxLoop_rate_mem bs
      (fun x => 0 ≤ x ∧ ∃ n : ℤ, x * 100 = (n : ℚ)) 0 0 0
      (max 0 (income - max sd add)) hrates hok
    rw [hpt'] at hub hmem
    obtain ⟨hmr0, n, hn⟩ := hmem
    have hft_le : ft ≤ mr * (max 0 (income - max sd add)) := by simpa using hub
    have heff_le : (if 0 < income then ft / income * 100 else 0) ≤ (n : ℚ) := by
      rw [if_pos hincpos, ← hn, div_mul_eq_mul_div, div_le_iff₀ hincpos]
      have h1 : mr * (max 0 (income - max sd add)) ≤ mr * income :=
        mul_le_mul_of_nonneg_left htile hmr0
      linarith
    have hmarg : round2 (mr * 100) = (n : ℚ) := by
      rw [hn]; exact round2_intCast n
    refine ⟨?_, ?_, ?_⟩
    · show round2 (if 0 < income then ft / income * 100 else 0) ≤
        round2 (mr * 100)
      rw [hmarg]
      exact round2_le_int heff_le
    · intro h0
      exact absurd h0 hincpos.ne'
    · intro sd' hsd' hz'
      rw [hsd] at hsd'
      simp only [Except.ok.injEq] at hsd'
      subst hsd'
      exact absurd hz' htiz

/-- C10 witness at income 50000, status single: effective 8.03 against
marginal 12. -/
theorem c10_effective_le_marginal_witness :
    (TaxResult.mk 50000 35400 4016 8.03 12 14600 14600).effective_rate ≤
      (TaxResult.mk 50000 35400 4016 8.03 12 14600 14600).marginal_rate :=
  (c10_effective_le_marginal 50000 0 "single" 0
    ⟨50000, 35400, 4016, 8.03, 12, 14600, 14600⟩
    (by norm_num [calculate_tax, get_standard_deduction,
      calculate_progressive_tax, get_tax_brackets, progTaxLoop, leInf,
      TAX_BRACKETS_SINGLE, round2, rhe, max_def])).1
